import Mathlib

/-!
Verification of the signal-input JIT transform
(`packages/compiler-cli/src/transformers/jit_transforms/initializer_api_transforms/input_function.ts`).

The TypeScript AST node shapes that the transform reads and constructs are
embedded as a deep syntax type `Expr` plus the declaration-level records
below.  The external collaborators (`ReflectionHost`,
`tryParseSignalInputMapping`, `isAngularDecorator`) live outside the
verified source file and are taken as parameters of the embedded
transform; the `ts.NodeFactory` primitives are embedded directly as the
constructors of the syntax type; the `ImportManager` is modelled from the
spec.
-/

namespace NgJit

/-- Embedded TypeScript type nodes; the transform only ever constructs the
`any` keyword type (`factory.createKeywordTypeNode(AnyKeyword)`); all other
type annotations are opaque data carried through unchanged. -/
inductive TypeNode where
  | anyKeyword : TypeNode
  | otherType : Nat → TypeNode
deriving DecidableEq, Repr

/-- Embedded TypeScript expression nodes, covering the shapes the transform
reads (identifiers, property accesses) and the shapes it constructs via the
node factory (`createTrue`, `createFalse`, `createStringLiteral`,
`createIdentifier`, `createPropertyAccessExpression`,
`createCallExpression`, `createAsExpression`,
`createObjectLiteralExpression` of property assignments) together with
`ts.setOriginalNode`, modelled as a provenance-recording wrapper.
`undefinedVal` stands for the JavaScript `undefined` value produced by
accessing a field a node does not have. -/
inductive Expr where
  | trueLit : Expr
  | falseLit : Expr
  | stringLiteral : String → Expr
  | ident : String → Expr
  | propertyAccess : Expr → Expr → Expr
  | call : Expr → Option (List TypeNode) → List Expr → Expr
  | asExpr : Expr → TypeNode → Expr
  | objectLiteral : List (String × Expr) → Expr
  | setOriginalNode : Expr → Expr → Expr
  | undefinedVal : Expr
  | otherExpr : Nat → Expr

/-- `ts.isIdentifier`. -/
def Expr.isIdentifier : Expr → Bool
  | .ident _ => true
  | _ => false

/-- The JavaScript member access `.expression`: defined on the node kinds
that carry such a field (property accesses, calls, `as`-expressions); on
any other node the access yields the `undefined` value. -/
def Expr.expression : Expr → Expr
  | .propertyAccess e _ => e
  | .call e _ _ => e
  | .asExpr e _ => e
  | _ => .undefinedVal

/-- A `ts.Decorator` node: the `@`-wrapper around an expression
(`factory.createDecorator`). -/
structure DecoratorNode where
  expression : Expr

/-- A member of a `ts.PropertyDeclaration`'s modifier list: either a
decorator node or a plain modifier keyword (opaque here). -/
inductive ModifierLike where
  | dec : DecoratorNode → ModifierLike
  | modifier : Nat → ModifierLike

/-- A `ts.PropertyName`: the transform reads `.text`, which JavaScript
yields as `undefined` on a computed property name. -/
inductive PropertyName where
  | ident : String → PropertyName
  | stringLiteralName : String → PropertyName
  | numericLiteralName : String → PropertyName
  | computed : Expr → PropertyName

/-- The `.text` member access on a property name; `none` models the
JavaScript `undefined` obtained on a computed property name. -/
def PropertyName.text : PropertyName → Option String
  | .ident t => some t
  | .stringLiteralName t => some t
  | .numericLiteralName t => some t
  | .computed _ => none

/-- A `ts.PropertyDeclaration`.  `otherData` stands for every node field
the transform neither reads nor rewrites (source positions, JSDoc, parent
links, ...), so that frame conditions are statable. -/
structure PropertyDeclaration where
  modifiers : Option (List ModifierLike)
  name : PropertyName
  questionToken : Option Unit
  type : Option TypeNode
  initializer : Option Expr
  otherData : Nat

/-- An ngtsc reflection `Decorator`: the decorator that triggered the
transform (the Angular class decorator).  Its `identifier` is, per the
reflection interface, either a plain identifier or a namespaced reference
(a property access whose qualifier names the namespace import). -/
structure NgDecorator where
  name : String
  identifier : Expr

/-- The slice of the ngtsc `ReflectionHost` interface the transform
consumes: `getDecoratorsOfDeclaration`, which may report `null`. -/
structure ReflectionHost where
  getDecoratorsOfDeclaration : PropertyDeclaration → Option (List NgDecorator)

/-- The `{name, value}` record passed to `tryParseSignalInputMapping`:
`name` is `member.name.text` (possibly `undefined`), `value` is
`member.initializer ?? null`. -/
structure InputNameValue where
  name : Option String
  value : Option Expr

/-- The ngtsc `InputMapping` produced by the external parser.  `transform`
is the optional transform reference the parser may report; the verified
code ignores it by design. -/
structure InputMapping where
  classPropertyName : Option String
  bindingPropertyName : String
  required : Bool
  isSignal : Bool
  transform : Option Expr

/-- Modelled from the spec: the `ImportManager` collaborator is not part
of the verified source file; §6 of the spec describes it as
`namespaceImportFor(moduleName) -> importable identifier expression`,
idempotent per file.  The state records, in order, the modules for which
a namespace import specifier has been introduced. -/
structure ImportManager where
  namespaceImports : List String
deriving DecidableEq, Repr

/-- Modelled from the spec: `generateNamespaceImport` returns the
identifier of the namespace import for the module (deterministic per
module name), reusing the existing specifier when one was already
introduced for that module and introducing a fresh one otherwise. -/
def ImportManager.generateNamespaceImport (im : ImportManager) (moduleName : String) :
    Expr × ImportManager :=
  (Expr.ident ("ns$" ++ moduleName),
   if moduleName ∈ im.namespaceImports then im
   else { namespaceImports := im.namespaceImports ++ [moduleName] })

/-- The decorator-presence check of the transform:
`host.getDecoratorsOfDeclaration(member)?.some(d => isAngularDecorator(d, 'Input', isCore))`.
An absent decorator list makes the optional chain yield `undefined`, which
is falsy. -/
def alreadyHasInputDecorator
    (isAngularDecorator : NgDecorator → String → Bool → Bool)
    (host : ReflectionHost) (member : PropertyDeclaration) (isCore : Bool) : Bool :=
  ((host.getDecoratorsOfDeclaration member).map
    (fun ds => ds.any (fun d => isAngularDecorator d "Input" isCore))).getD false

/-- The `fields` record of the transform, as the ordered key/expression
list that `Object.entries` enumerates (string keys of an object literal
enumerate in insertion order):
`isSignal: true, alias: <bindingPropertyName>, required: <flag>, transform: undefined`. -/
def synthesizedFields (inputMapping : InputMapping) : List (String × Expr) :=
  [("isSignal", Expr.trueLit),
   ("alias", Expr.stringLiteral inputMapping.bindingPropertyName),
   ("required", if inputMapping.required then Expr.trueLit else Expr.falseLit),
   ("transform", Expr.ident "undefined")]

/-- `ts.isIdentifier(decorator.identifier) ? decorator.identifier : decorator.identifier.expression`. -/
def classDecoratorIdentifierOf (decorator : NgDecorator) : Expr :=
  if decorator.identifier.isIdentifier then decorator.identifier
  else decorator.identifier.expression

/-- The `newDecorator` node built by the transform:
`@<nsImport>.Input(<objectLiteral> as any)`, with the synthesized `Input`
identifier carrying the class decorator identifier as its original node. -/
def newDecoratorNode (nsImport : Expr) (decorator : NgDecorator)
    (inputMapping : InputMapping) : DecoratorNode :=
  ⟨Expr.call
      (Expr.propertyAccess nsImport
        (Expr.setOriginalNode (Expr.ident "Input") (classDecoratorIdentifierOf decorator)))
      none
      [Expr.asExpr
        (Expr.objectLiteral ((synthesizedFields inputMapping).map
          (fun nv => (nv.1, nv.2))))
        TypeNode.anyKeyword]⟩

/-- `factory.updatePropertyDeclaration`: rebuilds the declaration from the
given pieces, preserving every field not listed. -/
def updatePropertyDeclaration (member : PropertyDeclaration)
    (modifiers : List ModifierLike) (name : PropertyName)
    (questionToken : Option Unit) (type : Option TypeNode)
    (initializer : Option Expr) : PropertyDeclaration :=
  { member with
      modifiers := some modifiers
      name := name
      questionToken := questionToken
      type := type
      initializer := initializer }

/-- The embedded `signalInputsTransform`.  The external collaborators
`tryParseSignalInputMapping` and `isAngularDecorator` (imported from
ngtsc, outside the verified file) are parameters; the node factory is the
constructors of `Expr`; the import-manager state is threaded explicitly,
so the result pairs the (possibly rewritten) declaration with the state
of the import manager after the call. -/
def signalInputsTransform
    (tryParseSignalInputMapping : InputNameValue → ReflectionHost → Bool → Option InputMapping)
    (isAngularDecorator : NgDecorator → String → Bool → Bool)
    (member : PropertyDeclaration) (host : ReflectionHost)
    (importManager : ImportManager) (decorator : NgDecorator) (isCore : Bool) :
    PropertyDeclaration × ImportManager :=
  if alreadyHasInputDecorator isAngularDecorator host member isCore then
    (member, importManager)
  else
    match tryParseSignalInputMapping
        { name := member.name.text, value := member.initializer } host isCore with
    | none => (member, importManager)
    | some inputMapping =>
        let nsImportResult := importManager.generateNamespaceImport "@angular/core"
        let newDecorator := newDecoratorNode nsImportResult.1 decorator inputMapping
        (updatePropertyDeclaration member
          (ModifierLike.dec newDecorator :: (member.modifiers.getD []))
          member.name member.questionToken member.type member.initializer,
         nsImportResult.2)

/-- The value of the rewrite branch of `signalInputsTransform`, packaged
for reuse in statements: the declaration with the new decorator prepended,
paired with the import-manager state after requesting the namespace import
of `@angular/core`. -/
def rewrittenResult (member : PropertyDeclaration) (importManager : ImportManager)
    (decorator : NgDecorator) (inputMapping : InputMapping) :
    PropertyDeclaration × ImportManager :=
  (updatePropertyDeclaration member
    (ModifierLike.dec
        (newDecoratorNode (importManager.generateNamespaceImport "@angular/core").1
          decorator inputMapping) ::
      (member.modifiers.getD []))
    member.name member.questionToken member.type member.initializer,
   (importManager.generateNamespaceImport "@angular/core").2)

/-- The name node of the synthesized decorator call of a declaration: the
right-hand side of the property access inside the first modifier, when the
first modifier has the synthesized `@ns.Input(...)` shape. -/
def synthesizedDecoratorNameNode (p : PropertyDeclaration) : Option Expr :=
  match p.modifiers with
  | some (ModifierLike.dec ⟨Expr.call (Expr.propertyAccess _ nameNode) _ _⟩ :: _) =>
      some nameNode
  | _ => none

section Lemmas

variable (tryParse : InputNameValue → ReflectionHost → Bool → Option InputMapping)
variable (isAng : NgDecorator → String → Bool → Bool)
variable (member : PropertyDeclaration) (host : ReflectionHost)
variable (im : ImportManager) (decorator : NgDecorator) (isCore : Bool)

/-- Helper: a decorated member short-circuits to the unchanged pair. -/
theorem transform_eq_of_decorated
    (h : alreadyHasInputDecorator isAng host member isCore = true) :
    signalInputsTransform tryParse isAng member host im decorator isCore = (member, im) := by
  simp [signalInputsTransform, h]

/-- Helper: a member whose initializer the parser rejects yields the
unchanged pair. -/
theorem transform_eq_of_parse_none
    (h : tryParse ⟨member.name.text, member.initializer⟩ host isCore = none) :
    signalInputsTransform tryParse isAng member host im decorator isCore = (member, im) := by
  by_cases hb : alreadyHasInputDecorator isAng host member isCore
  · simp [signalInputsTransform, hb]
  · simp [signalInputsTransform, hb, h]

/-- Helper: an undecorated member with a recognized initializer yields the
rewrite-branch value. -/
theorem transform_eq_of_parse_some (inputMapping : InputMapping)
    (hdec : alreadyHasInputDecorator isAng host member isCore = false)
    (hparse : tryParse ⟨member.name.text, member.initializer⟩ host isCore = some inputMapping) :
    signalInputsTransform tryParse isAng member host im decorator isCore =
      rewrittenResult member im decorator inputMapping := by
  simp [signalInputsTransform, hdec, hparse, rewrittenResult]

/-- Helper: the rewritten declaration is never equal to its input (the
modifier list strictly grows). -/
theorem rewrittenResult_fst_ne (inputMapping : InputMapping) :
    (rewrittenResult member im decorator inputMapping).1 ≠ member := by
  intro h
  have hmods := congrArg PropertyDeclaration.modifiers h
  simp only [rewrittenResult, updatePropertyDeclaration] at hmods
  cases hm : member.modifiers with
  | none => rw [hm] at hmods; exact Option.noConfusion hmods
  | some l =>
      rw [hm] at hmods
      have hlist := Option.some.inj hmods
      have hlen := congrArg List.length hlist
      simp [hm] at hlen

end Lemmas

/-- Sample initializer expression `input("Name")`. -/
def sampleInitializer : Expr :=
  Expr.call (Expr.ident "input") none [Expr.stringLiteral "Name"]

/-- Sample member `name = input("Name")` with no modifiers, no question
token and no type annotation. -/
def sampleMember : PropertyDeclaration :=
  ⟨none, PropertyName.ident "name", none, none, some sampleInitializer, 0⟩

/-- Sample member `foo` with no initializer. -/
def samplePlainMember : PropertyDeclaration :=
  ⟨none, PropertyName.ident "foo", none, none, none, 1⟩

/-- Sample parsed mapping: alias `"Name"`, optional, with no transform. -/
def sampleMapping : InputMapping := ⟨some "name", "Name", false, true, none⟩

/-- Sample stand-in for the external parser: recognizes initializers that
are calls with an identifier callee and reports `sampleMapping` for them. -/
def sampleParse : InputNameValue → ReflectionHost → Bool → Option InputMapping :=
  fun nv _ _ =>
    match nv.value with
    | some (Expr.call (Expr.ident _) _ _) => some sampleMapping
    | _ => none

/-- Sample stand-in for the external decorator-identity test: matches by
reflected decorator name. -/
def sampleIsAng : NgDecorator → String → Bool → Bool := fun d n _ => d.name == n

/-- A host reporting no decorator list for any declaration. -/
def emptyHost : ReflectionHost := ⟨fun _ => none⟩

/-- A host reporting a single `@Input` decorator for every declaration. -/
def inputDecoratedHost : ReflectionHost :=
  ⟨fun _ => some [⟨"Input", Expr.ident "Input"⟩]⟩

/-- Sample triggering class decorator `@Component`, a plain identifier. -/
def sampleClassDecorator : NgDecorator := ⟨"Component", Expr.ident "Component"⟩

/-- Empty import-manager state. -/
def emptyIm : ImportManager := ⟨[]⟩

/-- C1: on the rewrite path (member not yet decorated, initializer
recognized as an input-factory call yielding `inputMapping`), the
synthesized decorator metadata object literal has exactly the four fields
`isSignal, alias, required, transform` in that order, with `isSignal` the
literal `true`, `alias` the string literal of `bindingPropertyName`,
`required` mirroring the mapping's flag, and `transform` the `undefined`
identifier — for every `inputMapping`, in particular whatever transform
reference `inputMapping.transform` reports. -/
theorem metadata_fields_exact
    (tryParse : InputNameValue → ReflectionHost → Bool → Option InputMapping)
    (isAng : NgDecorator → String → Bool → Bool)
    (member : PropertyDeclaration) (host : ReflectionHost)
    (im : ImportManager) (decorator : NgDecorator) (isCore : Bool)
    (inputMapping : InputMapping)
    (hdec : alreadyHasInputDecorator isAng host member isCore = false)
    (hparse : tryParse ⟨member.name.text, member.initializer⟩ host isCore = some inputMapping) :
    ((signalInputsTransform tryParse isAng member host im decorator isCore).1).modifiers =
      some (ModifierLike.dec ⟨Expr.call
          (Expr.propertyAccess (im.generateNamespaceImport "@angular/core").1
            (Expr.setOriginalNode (Expr.ident "Input") (classDecoratorIdentifierOf decorator)))
          none
          [Expr.asExpr
            (Expr.objectLiteral
              [("isSignal", Expr.trueLit),
               ("alias", Expr.stringLiteral inputMapping.bindingPropertyName),
               ("required", if inputMapping.required then Expr.trueLit else Expr.falseLit),
               ("transform", Expr.ident "undefined")])
            TypeNode.anyKeyword]⟩ :: member.modifiers.getD []) := by
  rw [transform_eq_of_parse_some tryParse isAng member host im decorator isCore
    inputMapping hdec hparse]
  simp [rewrittenResult, updatePropertyDeclaration, newDecoratorNode, synthesizedFields]

/-- Witness for C1 at the member `name = input("Name")`. -/
theorem metadata_fields_exact_witness :
    ((signalInputsTransform sampleParse sampleIsAng sampleMember emptyHost emptyIm
        sampleClassDecorator false).1).modifiers =
      some (ModifierLike.dec ⟨Expr.call
          (Expr.propertyAccess (emptyIm.generateNamespaceImport "@angular/core").1
            (Expr.setOriginalNode (Expr.ident "Input")
              (classDecoratorIdentifierOf sampleClassDecorator)))
          none
          [Expr.asExpr
            (Expr.objectLiteral
              [("isSignal", Expr.trueLit),
               ("alias", Expr.stringLiteral sampleMapping.bindingPropertyName),
               ("required", if sampleMapping.required then Expr.trueLit else Expr.falseLit),
               ("transform", Expr.ident "undefined")])
            TypeNode.anyKeyword]⟩ :: sampleMember.modifiers.getD []) :=
  metadata_fields_exact sampleParse sampleIsAng sampleMember emptyHost emptyIm
    sampleClassDecorator false sampleMapping rfl rfl

/-- C2: when the external parser reports no input mapping for the member's
name and initializer (absent initializer or unrecognized shape), the
transform returns the member declaration itself, unchanged, together with
the untouched import-manager state. -/
theorem unparsed_member_unchanged
    (tryParse : InputNameValue → ReflectionHost → Bool → Option InputMapping)
    (isAng : NgDecorator → String → Bool → Bool)
    (member : PropertyDeclaration) (host : ReflectionHost)
    (im : ImportManager) (decorator : NgDecorator) (isCore : Bool)
    (h : tryParse ⟨member.name.text, member.initializer⟩ host isCore = none) :
    signalInputsTransform tryParse isAng member host im decorator isCore = (member, im) :=
  transform_eq_of_parse_none tryParse isAng member host im decorator isCore h

/-- Witness for C2 at the initializer-free member `foo`. -/
theorem unparsed_member_unchanged_witness :
    signalInputsTransform sampleParse sampleIsAng samplePlainMember emptyHost emptyIm
        sampleClassDecorator false = (samplePlainMember, emptyIm) :=
  unparsed_member_unchanged sampleParse sampleIsAng samplePlainMember emptyHost emptyIm
    sampleClassDecorator false rfl

/-- C3: when the decoration host reports a decorator list containing a
decorator matching the target `Input` decorator under the `isCore` flag,
the transform returns the member unchanged, whatever its initializer. -/
theorem decorated_member_unchanged
    (tryParse : InputNameValue → ReflectionHost → Bool → Option InputMapping)
    (isAng : NgDecorator → String → Bool → Bool)
    (member : PropertyDeclaration) (host : ReflectionHost)
    (im : ImportManager) (decorator : NgDecorator) (isCore : Bool)
    (ds : List NgDecorator)
    (hds : host.getDecoratorsOfDeclaration member = some ds)
    (hany : ds.any (fun d => isAng d "Input" isCore) = true) :
    signalInputsTransform tryParse isAng member host im decorator isCore = (member, im) := by
  apply transform_eq_of_decorated
  simp [alreadyHasInputDecorator, hds, hany]

/-- Witness for C3: the member `name = input("Name")` (a recognizable
initializer) already decorated with `@Input` stays unchanged. -/
theorem decorated_member_unchanged_witness :
    signalInputsTransform sampleParse sampleIsAng sampleMember inputDecoratedHost emptyIm
        sampleClassDecorator false = (sampleMember, emptyIm) :=
  decorated_member_unchanged sampleParse sampleIsAng sampleMember inputDecoratedHost emptyIm
    sampleClassDecorator false [⟨"Input", Expr.ident "Input"⟩] rfl rfl

/-- C4: idempotence.  Run the transform once; run it again on its own
output with the same collaborators, where the host consulted the second
time reports the decorator attached by the first run (and coincides with
the first host when the first run changed nothing).  The second run
returns exactly the first run's output, because the presence check
short-circuits on the already-attached decorator. -/
theorem transform_idempotent
    (tryParse : InputNameValue → ReflectionHost → Bool → Option InputMapping)
    (isAng : NgDecorator → String → Bool → Bool)
    (member : PropertyDeclaration) (host host' : ReflectionHost)
    (im : ImportManager) (decorator : NgDecorator) (isCore : Bool)
    (h1 : (signalInputsTransform tryParse isAng member host im decorator isCore).1 = member →
      host' = host)
    (h2 : (signalInputsTransform tryParse isAng member host im decorator isCore).1 ≠ member →
      ∃ ds, host'.getDecoratorsOfDeclaration
          (signalInputsTransform tryParse isAng member host im decorator isCore).1 = some ds ∧
        ds.any (fun d => isAng d "Input" isCore) = true) :
    signalInputsTransform tryParse isAng
        (signalInputsTransform tryParse isAng member host im decorator isCore).1 host'
        (signalInputsTransform tryParse isAng member host im decorator isCore).2
        decorator isCore =
      signalInputsTransform tryParse isAng member host im decorator isCore := by
  cases hb : alreadyHasInputDecorator isAng host member isCore with
  | true =>
      have hfirst := transform_eq_of_decorated tryParse isAng member host im decorator isCore hb
      have hh : host' = host := h1 (by rw [hfirst])
      rw [hfirst, hh]
      exact transform_eq_of_decorated tryParse isAng member host im decorator isCore hb
  | false =>
      cases hp : tryParse ⟨member.name.text, member.initializer⟩ host isCore with
      | none =>
          have hfirst :=
            transform_eq_of_parse_none tryParse isAng member host im decorator isCore hp
          have hh : host' = host := h1 (by rw [hfirst])
          rw [hfirst, hh]
          exact transform_eq_of_parse_none tryParse isAng member host im decorator isCore hp
      | some m =>
          have hfirst :=
            transform_eq_of_parse_some tryParse isAng member host im decorator isCore m hb hp
          have hne : (signalInputsTransform tryParse isAng member host im decorator isCore).1 ≠
              member := by
            rw [hfirst]; exact rewrittenResult_fst_ne member im decorator m
          obtain ⟨ds, hds, hany⟩ := h2 hne
          have hb2 : alreadyHasInputDecorator isAng host'
              (signalInputsTransform tryParse isAng member host im decorator isCore).1 isCore =
              true := by
            simp [alreadyHasInputDecorator, hds, hany]
          exact transform_eq_of_decorated tryParse isAng _ host' _ decorator isCore hb2

/-- Witness for C4: first run rewrites `name = input("Name")`; the second
run, against a host reporting the attached `@Input`, reproduces the first
output. -/
theorem transform_idempotent_witness :
    signalInputsTransform sampleParse sampleIsAng
        (signalInputsTransform sampleParse sampleIsAng sampleMember emptyHost emptyIm
          sampleClassDecorator false).1 inputDecoratedHost
        (signalInputsTransform sampleParse sampleIsAng sampleMember emptyHost emptyIm
          sampleClassDecorator false).2 sampleClassDecorator false =
      signalInputsTransform sampleParse sampleIsAng sampleMember emptyHost emptyIm
        sampleClassDecorator false :=
  transform_idempotent sampleParse sampleIsAng sampleMember emptyHost inputDecoratedHost emptyIm
    sampleClassDecorator false
    (fun h => absurd (congrArg PropertyDeclaration.modifiers h)
      (fun hx => Option.noConfusion hx))
    (fun _ => ⟨[⟨"Input", Expr.ident "Input"⟩], rfl, rfl⟩)

/-- C5: frame condition of the rewrite.  The output declaration's modifier
list is exactly the new decorator followed by the original modifiers in
their original order, and its name, question token, type annotation,
initializer, and remaining node data are those of the original member. -/
theorem rewrite_frame_condition
    (tryParse : InputNameValue → ReflectionHost → Bool → Option InputMapping)
    (isAng : NgDecorator → String → Bool → Bool)
    (member : PropertyDeclaration) (host : ReflectionHost)
    (im : ImportManager) (decorator : NgDecorator) (isCore : Bool)
    (inputMapping : InputMapping)
    (hdec : alreadyHasInputDecorator isAng host member isCore = false)
    (hparse : tryParse ⟨member.name.text, member.initializer⟩ host isCore = some inputMapping) :
    ((signalInputsTransform tryParse isAng member host im decorator isCore).1).modifiers =
      some (ModifierLike.dec
          (newDecoratorNode (im.generateNamespaceImport "@angular/core").1 decorator
            inputMapping) ::
        member.modifiers.getD []) ∧
    ((signalInputsTransform tryParse isAng member host im decorator isCore).1).name =
      member.name ∧
    ((signalInputsTransform tryParse isAng member host im decorator isCore).1).questionToken =
      member.questionToken ∧
    ((signalInputsTransform tryParse isAng member host im decorator isCore).1).type =
      member.type ∧
    ((signalInputsTransform tryParse isAng member host im decorator isCore).1).initializer =
      member.initializer ∧
    ((signalInputsTransform tryParse isAng member host im decorator isCore).1).otherData =
      member.otherData := by
  rw [transform_eq_of_parse_some tryParse isAng member host im decorator isCore
    inputMapping hdec hparse]
  simp [rewrittenResult, updatePropertyDeclaration]

/-- Witness for C5 at the member `name = input("Name")`. -/
theorem rewrite_frame_condition_witness :
    ((signalInputsTransform sampleParse sampleIsAng sampleMember emptyHost emptyIm
        sampleClassDecorator false).1).modifiers =
      some (ModifierLike.dec
          (newDecoratorNode (emptyIm.generateNamespaceImport "@angular/core").1
            sampleClassDecorator sampleMapping) ::
        sampleMember.modifiers.getD []) ∧
    ((signalInputsTransform sampleParse sampleIsAng sampleMember emptyHost emptyIm
        sampleClassDecorator false).1).name = sampleMember.name ∧
    ((signalInputsTransform sampleParse sampleIsAng sampleMember emptyHost emptyIm
        sampleClassDecorator false).1).questionToken = sampleMember.questionToken ∧
    ((signalInputsTransform sampleParse sampleIsAng sampleMember emptyHost emptyIm
        sampleClassDecorator false).1).type = sampleMember.type ∧
    ((signalInputsTransform sampleParse sampleIsAng sampleMember emptyHost emptyIm
        sampleClassDecorator false).1).initializer = sampleMember.initializer ∧
    ((signalInputsTransform sampleParse sampleIsAng sampleMember emptyHost emptyIm
        sampleClassDecorator false).1).otherData = sampleMember.otherData :=
  rewrite_frame_condition sampleParse sampleIsAng sampleMember emptyHost emptyIm
    sampleClassDecorator false sampleMapping rfl rfl

/-- C6: the new decorator wraps the call
`<namespaceImport>.Input(<objectLiteral> as any)` whose qualifier is the
namespace-import identifier obtained from the import manager for
`@angular/core`; the import-manager state afterwards is the one returned
by that request, which reuses an existing specifier for `@angular/core`
(so at most one specifier is ever introduced for it per file). -/
theorem decorator_call_shape_and_import
    (tryParse : InputNameValue → ReflectionHost → Bool → Option InputMapping)
    (isAng : NgDecorator → String → Bool → Bool)
    (member : PropertyDeclaration) (host : ReflectionHost)
    (im : ImportManager) (decorator : NgDecorator) (isCore : Bool)
    (inputMapping : InputMapping)
    (hdec : alreadyHasInputDecorator isAng host member isCore = false)
    (hparse : tryParse ⟨member.name.text, member.initializer⟩ host isCore = some inputMapping) :
    ((signalInputsTransform tryParse isAng member host im decorator isCore).1).modifiers =
      some (ModifierLike.dec ⟨Expr.call
          (Expr.propertyAccess (im.generateNamespaceImport "@angular/core").1
            (Expr.setOriginalNode (Expr.ident "Input") (classDecoratorIdentifierOf decorator)))
          none
          [Expr.asExpr
            (Expr.objectLiteral ((synthesizedFields inputMapping).map (fun nv => (nv.1, nv.2))))
            TypeNode.anyKeyword]⟩ :: member.modifiers.getD []) ∧
    (signalInputsTransform tryParse isAng member host im decorator isCore).2 =
      (im.generateNamespaceImport "@angular/core").2 ∧
    ((signalInputsTransform tryParse isAng member host im decorator isCore).2).namespaceImports =
      (if "@angular/core" ∈ im.namespaceImports then im.namespaceImports
       else im.namespaceImports ++ ["@angular/core"]) ∧
    ("@angular/core" ∈ im.namespaceImports →
      (signalInputsTransform tryParse isAng member host im decorator isCore).2 = im) := by
  rw [transform_eq_of_parse_some tryParse isAng member host im decorator isCore
    inputMapping hdec hparse]
  refine ⟨?_, rfl, ?_, ?_⟩
  · simp [rewrittenResult, updatePropertyDeclaration, newDecoratorNode]
  · by_cases hmem : "@angular/core" ∈ im.namespaceImports <;>
      simp [rewrittenResult, ImportManager.generateNamespaceImport, hmem]
  · intro hmem
    simp [rewrittenResult, ImportManager.generateNamespaceImport, hmem]

/-- Witness for C6 at the member `name = input("Name")` and the empty
state of the import manager. -/
theorem decorator_call_shape_and_import_witness :
    ((signalInputsTransform sampleParse sampleIsAng sampleMember emptyHost emptyIm
        sampleClassDecorator false).1).modifiers =
      some (ModifierLike.dec ⟨Expr.call
          (Expr.propertyAccess (emptyIm.generateNamespaceImport "@angular/core").1
            (Expr.setOriginalNode (Expr.ident "Input")
              (classDecoratorIdentifierOf sampleClassDecorator)))
          none
          [Expr.asExpr
            (Expr.objectLiteral ((synthesizedFields sampleMapping).map (fun nv => (nv.1, nv.2))))
            TypeNode.anyKeyword]⟩ :: sampleMember.modifiers.getD []) ∧
    (signalInputsTransform sampleParse sampleIsAng sampleMember emptyHost emptyIm
        sampleClassDecorator false).2 =
      (emptyIm.generateNamespaceImport "@angular/core").2 ∧
    ((signalInputsTransform sampleParse sampleIsAng sampleMember emptyHost emptyIm
        sampleClassDecorator false).2).namespaceImports =
      (if "@angular/core" ∈ emptyIm.namespaceImports then emptyIm.namespaceImports
       else emptyIm.namespaceImports ++ ["@angular/core"]) ∧
    ("@angular/core" ∈ emptyIm.namespaceImports →
      (signalInputsTransform sampleParse sampleIsAng sampleMember emptyHost emptyIm
        sampleClassDecorator false).2 = emptyIm) :=
  decorator_call_shape_and_import sampleParse sampleIsAng sampleMember emptyHost emptyIm
    sampleClassDecorator false sampleMapping rfl rfl

/-- C7: the identifier naming the decorator inside the synthesized call is
the `Input` identifier carrying, as its original node, the class decorator
identifier derived from the decorator that triggered the transform. -/
theorem synthesized_ident_provenance
    (tryParse : InputNameValue → ReflectionHost → Bool → Option InputMapping)
    (isAng : NgDecorator → String → Bool → Bool)
    (member : PropertyDeclaration) (host : ReflectionHost)
    (im : ImportManager) (decorator : NgDecorator) (isCore : Bool)
    (inputMapping : InputMapping)
    (hdec : alreadyHasInputDecorator isAng host member isCore = false)
    (hparse : tryParse ⟨member.name.text, member.initializer⟩ host isCore = some inputMapping) :
    synthesizedDecoratorNameNode
        (signalInputsTransform tryParse isAng member host im decorator isCore).1 =
      some (Expr.setOriginalNode (Expr.ident "Input") (classDecoratorIdentifierOf decorator)) := by
  rw [transform_eq_of_parse_some tryParse isAng member host im decorator isCore
    inputMapping hdec hparse]
  simp [rewrittenResult, updatePropertyDeclaration, newDecoratorNode,
    synthesizedDecoratorNameNode]

/-- Witness for C7 at the member `name = input("Name")`. -/
theorem synthesized_ident_provenance_witness :
    synthesizedDecoratorNameNode
        (signalInputsTransform sampleParse sampleIsAng sampleMember emptyHost emptyIm
          sampleClassDecorator false).1 =
      some (Expr.setOriginalNode (Expr.ident "Input")
        (classDecoratorIdentifierOf sampleClassDecorator)) :=
  synthesized_ident_provenance sampleParse sampleIsAng sampleMember emptyHost emptyIm
    sampleClassDecorator false sampleMapping rfl rfl

/-- C8: total-case analysis.  For every input shape — no initializer, no
modifiers, computed property names included — the transform is a total
function whose result is either the unchanged input pair or, only when the
member is undecorated and its initializer parses to an input mapping, the
rewrite-branch value; there is no other outcome. -/
theorem no_throw_total_cases
    (tryParse : InputNameValue → ReflectionHost → Bool → Option InputMapping)
    (isAng : NgDecorator → String → Bool → Bool)
    (member : PropertyDeclaration) (host : ReflectionHost)
    (im : ImportManager) (decorator : NgDecorator) (isCore : Bool) :
    signalInputsTransform tryParse isAng member host im decorator isCore = (member, im) ∨
      (alreadyHasInputDecorator isAng host member isCore = false ∧
       ∃ m, tryParse ⟨member.name.text, member.initializer⟩ host isCore = some m ∧
         signalInputsTransform tryParse isAng member host im decorator isCore =
           rewrittenResult member im decorator m) := by
  cases hb : alreadyHasInputDecorator isAng host member isCore with
  | true =>
      exact Or.inl (transform_eq_of_decorated tryParse isAng member host im decorator isCore hb)
  | false =>
      cases hp : tryParse ⟨member.name.text, member.initializer⟩ host isCore with
      | none =>
          exact Or.inl
            (transform_eq_of_parse_none tryParse isAng member host im decorator isCore hp)
      | some m =>
          exact Or.inr ⟨rfl, m, rfl,
            transform_eq_of_parse_some tryParse isAng member host im decorator isCore m hb hp⟩

/-- C9: selection of the provenance source.  When the triggering
decorator's identifier is a plain identifier, that identifier itself is
the class decorator identifier; when it is a qualified (namespace-
accessed) reference, its expression part is used. -/
theorem provenance_source_selection (decorator : NgDecorator) :
    (∀ t, decorator.identifier = Expr.ident t →
      classDecoratorIdentifierOf decorator = Expr.ident t) ∧
    (∀ q n, decorator.identifier = Expr.propertyAccess q n →
      classDecoratorIdentifierOf decorator = q) := by
  constructor
  · intro t h
    simp [classDecoratorIdentifierOf, h, Expr.isIdentifier]
  · intro q n h
    simp [classDecoratorIdentifierOf, h, Expr.isIdentifier, Expr.expression]

/-- Witness for C9 at the namespaced decorator reference `ng.Component`
and at the plain reference `Component`. -/
theorem provenance_source_selection_witness :
    classDecoratorIdentifierOf
        ⟨"Component", Expr.propertyAccess (Expr.ident "ng") (Expr.ident "Component")⟩ =
      Expr.ident "ng" ∧
    classDecoratorIdentifierOf ⟨"Component", Expr.ident "Component"⟩ =
      Expr.ident "Component" :=
  ⟨(provenance_source_selection
      ⟨"Component", Expr.propertyAccess (Expr.ident "ng") (Expr.ident "Component")⟩).2
      (Expr.ident "ng") (Expr.ident "Component") rfl,
   (provenance_source_selection ⟨"Component", Expr.ident "Component"⟩).1 "Component" rfl⟩

/-- C10: when the host reports no decorator list at all, the presence
check evaluates to false and the outcome is decided entirely by the
initializer-parsing step: unchanged on no match, the rewrite-branch value
on a match. -/
theorem absent_decorator_list_proceeds
    (tryParse : InputNameValue → ReflectionHost → Bool → Option InputMapping)
    (isAng : NgDecorator → String → Bool → Bool)
    (member : PropertyDeclaration) (host : ReflectionHost)
    (im : ImportManager) (decorator : NgDecorator) (isCore : Bool)
    (hnone : host.getDecoratorsOfDeclaration member = none) :
    alreadyHasInputDecorator isAng host member isCore = false ∧
    (tryParse ⟨member.name.text, member.initializer⟩ host isCore = none →
      signalInputsTransform tryParse isAng member host im decorator isCore = (member, im)) ∧
    (∀ m, tryParse ⟨member.name.text, member.initializer⟩ host isCore = some m →
      signalInputsTransform tryParse isAng member host im decorator isCore =
        rewrittenResult member im decorator m) := by
  have hfalse : alreadyHasInputDecorator isAng host member isCore = false := by
    simp [alreadyHasInputDecorator, hnone]
  exact ⟨hfalse,
    fun hp => transform_eq_of_parse_none tryParse isAng member host im decorator isCore hp,
    fun m hp =>
      transform_eq_of_parse_some tryParse isAng member host im decorator isCore m hfalse hp⟩

/-- Witness for C10 at the host reporting no decorator list and the member
`name = input("Name")`. -/
theorem absent_decorator_list_proceeds_witness :
    alreadyHasInputDecorator sampleIsAng emptyHost sampleMember false = false ∧
    signalInputsTransform sampleParse sampleIsAng sampleMember emptyHost emptyIm
        sampleClassDecorator false =
      rewrittenResult sampleMember emptyIm sampleClassDecorator sampleMapping :=
  ⟨(absent_decorator_list_proceeds sampleParse sampleIsAng sampleMember emptyHost emptyIm
      sampleClassDecorator false rfl).1,
   (absent_decorator_list_proceeds sampleParse sampleIsAng sampleMember emptyHost emptyIm
      sampleClassDecorator false rfl).2.2 sampleMapping rfl⟩

end NgJit
